import Mathlib

/-!
# Verification of the RAG backend (sc4.0-aichatbot)

Shallow embedding of the retrieval-augmented-generation core of the
repository: the chunker (`backend/utils/pdf_processor.py`), the vector
store wrapper (`backend/utils/rag_system.py`) and the chat service's
result-count policy (`backend/services.py`, `backend/app.py`), together
with theorems settling the specification's claims about them.

Text is modelled as `List Char`; Python `int` parameters as `Int`;
fallible calls as `Except`.
-/

namespace RagChat

/-- Error raised by `split_text_into_chunks` on invalid parameters
(Python `ValueError`; the spec's `InvalidParameter`). -/
inductive ChunkError where
  | invalidParameter (msg : String)
deriving DecidableEq, Repr

/-- The `while start < text_length` loop of `split_text_into_chunks`
(`backend/utils/pdf_processor.py`, lines 40-62).  Each iteration emits
`text[start : start + chunk_size]`; the loop breaks once
`end >= text_length`, otherwise advances `start` by
`chunk_size - overlap` and breaks if the new `start >= text_length`
(that last break coincides with the `while` guard).  The loop is only
entered after validation established `overlap < chunk_size`, which the
guard records so that termination is provable. -/
def chunkLoop (text : List Char) (cs ov : Nat) (start : Nat) : List (List Char) :=
  if _h : start < text.length ∧ ov < cs then
    ((text.drop start).take cs) ::
      (if text.length ≤ start + cs then []
       else chunkLoop text cs ov (start + (cs - ov)))
  else []
termination_by text.length - start
decreasing_by
  simp_wf
  omega

/-- The function `split_text_into_chunks(text, chunk_size=1000, overlap=150)` from
`backend/utils/pdf_processor.py`, lines 19-62: returns `[]` on empty
text before any validation; then validates `chunk_size > 0`,
`overlap >= 0`, `overlap < chunk_size`, raising `ValueError` otherwise;
then runs the sliding-window loop. -/
def split_text_into_chunks (text : List Char) (chunk_size : Int := 1000)
    (overlap : Int := 150) : Except ChunkError (List (List Char)) :=
  if text = [] then
    Except.ok []
  else if chunk_size ≤ 0 then
    Except.error (ChunkError.invalidParameter "chunk_size must be greater than 0")
  else if overlap < 0 then
    Except.error (ChunkError.invalidParameter "overlap must be non-negative")
  else if chunk_size ≤ overlap then
    Except.error (ChunkError.invalidParameter "overlap must be less than chunk_size")
  else
    Except.ok (chunkLoop text chunk_size.toNat overlap.toNat 0)

/-- A chunk record as handed to `add_document_chunks`
(`backend/utils/rag_system.py`, line 52):
`{'id': str, 'doc_id': str, 'content': str, 'source': str, 'chunk_index': int}`. -/
structure Chunk where
  id : String
  doc_id : String
  content : String
  source : String
  chunk_index : Int
deriving DecidableEq, Repr

/-- The metadata dict stored alongside each chunk in the ChromaDB
collection (`add_document_chunks`, lines 62-70). -/
structure ChunkMeta where
  doc_id : String
  source : String
  chunk_index : Int
deriving DecidableEq, Repr

/-- One entry of the ChromaDB collection: its id, the document text
(which the store embeds), and its metadata. -/
structure StoredChunk where
  id : String
  document : String
  meta : ChunkMeta
deriving DecidableEq, Repr

/-- The ChromaDB collection `sc4_0_documents`, modelled as the list of
its stored entries. -/
abbrev Collection := List StoredChunk

/-- One aligned row of a ChromaDB query result: the columns
`ids[0][i]`, `documents[0][i]`, `metadatas[0][i]`, `distances[0][i]`
for a single-text query. -/
structure QueryRow where
  id : String
  document : String
  meta : ChunkMeta
  distance : Nat
deriving DecidableEq, Repr

/-- Modelled from the spec: the `self.collection.query` call of
ChromaDB used by `retrieve_relevant_chunks` (the library itself is not
part of the repository).  Per the spec's vector-store contract, the
`where` clause `{doc_id: {$in: ids}}` is a metadata pre-filter
restricting the candidate set to chunks whose `doc_id` is in `ids`;
ranking is by embedding distance over a fixed deterministic embedding
(abstracted here as `dist`, smaller = nearer), nearest first (a stable
sort by distance); at most `n_results` rows are returned, fewer when
the (filtered) corpus is smaller. -/
def collectionQuery (dist : String → String → Nat) (c : Collection)
    (query_text : String) (n_results : Nat)
    (whereDocIds : Option (List String)) : List QueryRow :=
  let candidates : Collection := match whereDocIds with
    | some ids => c.filter (fun sc => decide (sc.meta.doc_id ∈ ids))
    | none => c
  let ranked : Collection := candidates.insertionSort
    (fun a b => dist query_text a.document ≤ dist query_text b.document)
  (ranked.take n_results).map
    (fun sc => ⟨sc.id, sc.document, sc.meta, dist query_text sc.document⟩)

/-- The `self.collection.query` operation of an in-model collection,
packaged as a fallible store operation that in fact never fails. -/
def collectionStoreQuery (dist : String → String → Nat) (c : Collection) :
    String → Nat → Option (List String) → Except String (List QueryRow) :=
  fun q k w => Except.ok (collectionQuery dist c q k w)

/-- The method `RAGSystem.add_document_chunks` (`backend/utils/rag_system.py`,
lines 49-85).  `store_add` stands for `self.collection.add`, taking the
`ids`, `documents` and `metadatas` lists.  Empty input returns after a
print.  The `except` branch only prints the error — the `raise e` on
line 85 is commented out — so the call returns normally whether or not
the store raised. -/
def add_document_chunks
    (store_add : List String → List String → List ChunkMeta → Except String Unit)
    (chunks : List Chunk) : Except String Unit :=
  if chunks = [] then
    Except.ok ()
  else
    let ids := chunks.map (fun ch => ch.id)
    let documents := chunks.map (fun ch => ch.content)
    let metadatas := chunks.map
      (fun ch => ({ doc_id := ch.doc_id, source := ch.source,
                    chunk_index := ch.chunk_index } : ChunkMeta))
    match store_add ids documents metadatas with
    | Except.ok _ => Except.ok ()
    | Except.error _ => Except.ok ()

/-- The per-result dict built by `retrieve_relevant_chunks`
(`backend/utils/rag_system.py`, lines 129-136): id, content, source,
doc_id, chunk_index.  There is no distance field — line 135 leaves
`'distance'` commented out. -/
structure RetrievedChunk where
  id : String
  content : String
  source : String
  doc_id : String
  chunk_index : Int
deriving DecidableEq, Repr

/-- The method `RAGSystem.retrieve_relevant_chunks` (`backend/utils/rag_system.py`,
lines 89-145).  `store_query` stands for `self.collection.query`.  The
where-clause is built only when `doc_ids_filter` is truthy (neither
`None` nor `[]`).  Each result row is repackaged into a chunk dict
(without the distance).  Any exception from the store is caught and an
empty list returned (lines 142-145). -/
def retrieve_relevant_chunks
    (store_query : String → Nat → Option (List String) → Except String (List QueryRow))
    (query : String) (top_k : Nat)
    (doc_ids_filter : Option (List String) := none) : List RetrievedChunk :=
  let where_clause : Option (List String) :=
    match doc_ids_filter with
    | some ids => if ids.isEmpty then none else some ids
    | none => none
  match store_query query top_k where_clause with
  | Except.ok rows =>
      rows.map (fun r =>
        { id := r.id, content := r.document, source := r.meta.source,
          doc_id := r.meta.doc_id, chunk_index := r.meta.chunk_index })
  | Except.error _ => []

/-- Modelled from the spec: `RAGSystem.delete_document_chunks` is
called by `delete_document_service` (`backend/services.py`, line 406)
and by the delete route (`backend/app.py`, line 249), but no definition
of it appears in the available sources.  The spec specifies the
vector-store operation `delete_document(doc_id)`: "Removes every chunk
with matching `doc_id`.  Idempotent: deleting a non-existent doc_id is
a no-op, not an error." -/
def delete_document_chunks (c : Collection) (doc_id : String) : Collection :=
  c.filter (fun sc => decide (sc.meta.doc_id ≠ doc_id))

/-- The dynamic result-count policy of the chat handler
(`backend/services.py`, lines 203-207; identical in `backend/app.py`,
lines 425-431): `MAX_TOP_K = 20`; if the filter is a list of positive
length, `min(len * 5, 20)`, otherwise (Python `None` or `[]`) 5. -/
def dynamic_top_k (document_ids_filter : Option (List String)) : Nat :=
  match document_ids_filter with
  | some ids => if 0 < ids.length then min (ids.length * 5) 20 else 5
  | none => 5

/-- Python `needle in hay` on strings: substring containment. -/
def strContains (hay needle : String) : Bool :=
  hay.data.tails.any (fun t => needle.data.isPrefixOf t)

/-- One `{'source': ..., 'content': ...}` entry of the `sources` list
built by `generate_response` (lines 184-190). -/
structure SourceEntry where
  source : String
  content : String
deriving DecidableEq, Repr

/-- The answer dict returned by `generate_response`:
`{'answer': ..., 'sources': ..., 'confidence': ...}`. -/
structure AnswerResult where
  answer : String
  sources : List SourceEntry
  confidence : String
deriving DecidableEq, Repr

/-- The fixed no-relevant-information answer of `generate_response`
(line 154). -/
def noRelevantInfoMessage : String :=
  "I couldn\x27t find any relevant information in the uploaded documents to answer your question."

/-- The grounding prompt f-string of `generate_response` (lines
165-177), with the context block and the user query interpolated. -/
def buildPrompt (context query : String) : String :=
  "\n        You are a helpful AI assistant that answers questions based on provided documents.\n        Use the following context to answer the question at the end.\n        If you don\x27t know the answer based *only* on the context, say so clearly. Do not make up an answer.\n        Provide a concise and informative response.\n\n        Context:\n        " ++ context ++ "\n\n        Question: " ++ query ++ "\n\n        Answer:\n        "

/-- The method `RAGSystem.generate_response` (`backend/utils/rag_system.py`, lines
150-206).  `genModel` stands for `self.model.generate_content` (its
`.text`); the second component of the result counts how many times the
generative model was invoked.  Empty `relevant_chunks` short-circuits to
the fixed low-confidence answer with zero model calls; otherwise the
model is called once on the grounding prompt, the answer is trimmed, the
sources are truncated to 200 characters with an ellipsis marker, and
the confidence heuristic of lines 194-196 is applied; a model failure
is re-raised as `Error generating response: ...` (lines 204-206). -/
def generate_response (genModel : String → Except String String)
    (query : String) (relevant_chunks : List RetrievedChunk) :
    Except String AnswerResult × Nat :=
  if relevant_chunks = [] then
    (Except.ok { answer := noRelevantInfoMessage, sources := [], confidence := "low" }, 0)
  else
    let context := String.intercalate "\n\n"
      (relevant_chunks.map (fun ch => "Source: " ++ ch.source ++ "\nContent: " ++ ch.content))
    let prompt := buildPrompt context query
    match genModel prompt with
    | Except.ok raw =>
        let answer := raw.trim
        let sources := relevant_chunks.map (fun ch =>
          ({ source := ch.source,
             content := if 200 < ch.content.length
               then ch.content.take 200 ++ "..." else ch.content } : SourceEntry))
        let confidence :=
          if strContains answer "I couldn\x27t find" ||
             strContains answer "not found in the provided context" ||
             !(strContains answer.toLower "based on the context") then "low"
          else "high"
        (Except.ok { answer := answer, sources := sources, confidence := confidence }, 1)
    | Except.error e => (Except.error ("Error generating response: " ++ e), 1)

/-- Reassemble overlapping chunks: the first chunk followed by every
later chunk with its first `ov` characters — the part it shares with
its predecessor — removed.  Chunks cover the text with no gaps exactly
when this reassembly returns the text. -/
def reassemble (ov : Nat) : List (List Char) → List Char
  | [] => []
  | c :: rest => c ++ (rest.map (List.drop ov)).flatten

/-- Two consecutive chunks share exactly their `ov`-character overlap:
the last `ov` characters of the first are the first `ov` characters of
the second (which is longer than `ov`, so the shared part is proper). -/
def sharesOverlap (ov : Nat) (a b : List Char) : Prop :=
  a.drop (a.length - ov) = b.take ov ∧ ov < b.length

/-- A fixed abstract distance function used to instantiate the
universally quantified theorems on concrete inputs. -/
def demoDist : String → String → Nat := fun _ s => s.length

/-- A two-document demo collection used to instantiate the theorems on
concrete inputs. -/
def demoCollection : Collection :=
  [{ id := "d1-chunk-0", document := "cats are mammals",
     meta := { doc_id := "d1", source := "a.pdf", chunk_index := 0 } },
   { id := "d2-chunk-0", document := "dogs eat bones",
     meta := { doc_id := "d2", source := "b.pdf", chunk_index := 0 } }]

/-! ## Theorems settling the claims -/

/-- C7: the chat retrieval result-count policy computes
`top_k = min(len * 5, 20)` whenever the requested document-id filter is
a non-empty list, and `top_k = 5` for `None` or `[]`. -/
theorem C7_dynamic_top_k_policy (ids : List String) (h : ids ≠ []) :
    dynamic_top_k (some ids) = min (ids.length * 5) 20 ∧
    dynamic_top_k none = 5 ∧
    dynamic_top_k (some []) = 5 := by
  refine ⟨?_, rfl, rfl⟩
  have hpos : 0 < ids.length := List.length_pos.mpr h
  simp [dynamic_top_k, hpos]

/-- Witness for C7: a filter of length 3 gives `top_k = 15`, of length
5 gives `top_k = 20` (capped), and `None` or `[]` give `top_k = 5`. -/
theorem C7_dynamic_top_k_policy_witness :
    dynamic_top_k (some ["a", "b", "c"]) = 15 ∧
    dynamic_top_k (some ["a", "b", "c", "d", "e"]) = 20 ∧
    dynamic_top_k none = 5 ∧
    dynamic_top_k (some []) = 5 := by
  have h3 := C7_dynamic_top_k_policy ["a", "b", "c"] (by decide)
  have h5 := C7_dynamic_top_k_policy ["a", "b", "c", "d", "e"] (by decide)
  exact ⟨h3.1.trans (by decide), h5.1.trans (by decide), h3.2.1, h3.2.2⟩

/-- C10: on the empty text, `split_text_into_chunks` returns the empty
chunk list for every `chunk_size` and `overlap`, including invalid
ones: the empty-text check precedes parameter validation, so no error
is ever raised on empty input. -/
theorem C10_empty_text_always_nil (chunk_size overlap : Int) :
    split_text_into_chunks [] chunk_size overlap = Except.ok [] := by
  simp [split_text_into_chunks]

/-- C8: on an empty retrieved-chunk sequence, `generate_response`
returns the fixed no-relevant-information answer with `sources = []`
and `confidence = "low"`, and the generative model is invoked zero
times, for every model and query. -/
theorem C8_empty_retrieval_no_model_call
    (genModel : String → Except String String) (query : String) :
    generate_response genModel query [] =
      (Except.ok { answer := noRelevantInfoMessage, sources := [],
                   confidence := "low" }, 0) := by
  simp [generate_response]

/-- C2 counterexample: with a store whose add operation always raises,
`add_document_chunks` on a non-empty batch returns normally instead of
propagating the failure, and with a store whose query always raises,
`retrieve_relevant_chunks` returns `[]` instead of propagating. -/
theorem C2_counterexample :
    add_document_chunks (fun _ _ _ => Except.error "store failure")
      [{ id := "d1-chunk-0", doc_id := "d1", content := "cats are mammals",
         source := "a.pdf", chunk_index := 0 }] = Except.ok () ∧
    retrieve_relevant_chunks (fun _ _ _ => Except.error "store failure")
      "mammals" 5 none = [] := by
  exact ⟨rfl, rfl⟩

/-- C2 amended: vector-store errors ARE silently swallowed:
`add_document_chunks` returns normally for every store behaviour and
every batch (a store failure is only logged), and
`retrieve_relevant_chunks` returns `[]` whenever the store raises. -/
theorem C2_amended_store_errors_swallowed
    (store_add : List String → List String → List ChunkMeta → Except String Unit)
    (chunks : List Chunk) (e query : String) (top_k : Nat)
    (doc_ids_filter : Option (List String)) :
    add_document_chunks store_add chunks = Except.ok () ∧
    retrieve_relevant_chunks (fun _ _ _ => Except.error e)
      query top_k doc_ids_filter = [] := by
  constructor
  · unfold add_document_chunks
    split
    · rfl
    · dsimp only
      split <;> rfl
  · unfold retrieve_relevant_chunks
    rfl

/-- C4 counterexample: on the empty text, invalid parameters
(`chunk_size = 0`, `overlap = -1`) do not fail: the call returns
`ok []`, because the empty-text check precedes validation. -/
theorem C4_counterexample :
    split_text_into_chunks [] 0 (-1) = Except.ok [] := by rfl

/-- C4 amended: for every NON-EMPTY input text, calling
`split_text_into_chunks` with invalid parameters (`chunk_size ≤ 0`, or
`overlap < 0`, or `overlap ≥ chunk_size`) fails with an
`InvalidParameter` error rather than returning a result. -/
theorem C4_amended_invalid_params_fail
    (text : List Char) (chunk_size overlap : Int) (hne : text ≠ [])
    (hinv : chunk_size ≤ 0 ∨ overlap < 0 ∨ chunk_size ≤ overlap) :
    ∃ msg, split_text_into_chunks text chunk_size overlap =
      Except.error (ChunkError.invalidParameter msg) := by
  rw [split_text_into_chunks, if_neg hne]
  by_cases h1 : chunk_size ≤ 0
  · exact ⟨_, by rw [if_pos h1]⟩
  rw [if_neg h1]
  by_cases h2 : overlap < 0
  · exact ⟨_, by rw [if_pos h2]⟩
  rw [if_neg h2]
  have h3 : chunk_size ≤ overlap := by omega
  exact ⟨_, by rw [if_pos h3]⟩

/-- Witness for C4 amended: a one-character text with `chunk_size = 0`
fails with an `InvalidParameter` error. -/
theorem C4_amended_invalid_params_fail_witness :
    ∃ msg, split_text_into_chunks "a".data 0 150 =
      Except.error (ChunkError.invalidParameter msg) :=
  C4_amended_invalid_params_fail "a".data 0 150 (by decide) (Or.inl (by decide))

/-- Evaluation of `split_text_into_chunks` on 2500 identical characters with
parameters 1000/150: the window starts are 0, 850 and 1700, so it
returns three chunks of lengths 1000, 1000 and 800. -/
theorem split_replicate_2500 :
    split_text_into_chunks (List.replicate 2500 'a') 1000 150 =
      Except.ok [List.replicate 1000 'a', List.replicate 1000 'a',
                 List.replicate 800 'a'] := by
  rw [split_text_into_chunks]
  rw [if_neg (by simp), if_neg (by norm_num), if_neg (by norm_num),
      if_neg (by norm_num)]
  rw [show Int.toNat 1000 = 1000 from rfl, show Int.toNat 150 = 150 from rfl]
  rw [chunkLoop, dif_pos (by norm_num), if_neg (by norm_num)]
  rw [chunkLoop, dif_pos (by norm_num), if_neg (by norm_num)]
  rw [chunkLoop, dif_pos (by norm_num), if_pos (by norm_num)]
  norm_num

/-- C3 amended: chunking a text of length 2500 with `chunk_size=1000,
overlap=150` yields exactly 3 chunks with lengths 1000, 1000, 800. -/
theorem C3_amended_chunk_lengths_2500 :
    (split_text_into_chunks (List.replicate 2500 'a') 1000 150).map
      (fun chunks => chunks.map List.length) =
    Except.ok [1000, 1000, 800] := by
  rw [split_replicate_2500]
  simp only [Except.map, List.map_cons, List.map_nil, List.length_replicate]

/-- C3 counterexample: on a text of length 2500 the third chunk has
length 800 (the final window starts at 1700), not 650 as claimed. -/
theorem C3_counterexample :
    (split_text_into_chunks (List.replicate 2500 'a') 1000 150).map
      (fun chunks => chunks.map List.length) ≠
    Except.ok [1000, 1000, 650] := by
  rw [split_replicate_2500]
  simp only [Except.map, List.map_cons, List.map_nil, List.length_replicate]
  intro h
  have := Except.ok.inj h
  simp at this

/-- Every row of a ChromaDB query result originates from a stored chunk
of the collection, and satisfies the where-clause when one was given. -/
theorem mem_collectionQuery (dist : String → String → Nat) (c : Collection)
    (q : String) (k : Nat) (w : Option (List String)) (row : QueryRow)
    (hrow : row ∈ collectionQuery dist c q k w) :
    ∃ sc ∈ c, row = ⟨sc.id, sc.document, sc.meta, dist q sc.document⟩ ∧
      ∀ ids, w = some ids → sc.meta.doc_id ∈ ids := by
  cases w with
  | none =>
    simp only [collectionQuery, List.mem_map] at hrow
    obtain ⟨sc, hsc, rfl⟩ := hrow
    exact ⟨sc, (List.mem_insertionSort _).1 (List.take_subset _ _ hsc), rfl,
      fun ids h => nomatch h⟩
  | some ids0 =>
    simp only [collectionQuery, List.mem_map] at hrow
    obtain ⟨sc, hsc, rfl⟩ := hrow
    have h2 := (List.mem_insertionSort _).1 (List.take_subset _ _ hsc)
    have h3 := List.mem_filter.1 h2
    refine ⟨sc, h3.1, rfl, fun ids h => ?_⟩
    cases h
    exact of_decide_eq_true h3.2

/-- With no where-clause and `n_results` at least the collection size,
every stored chunk contributes a row to the query result. -/
theorem collectionQuery_complete (dist : String → String → Nat)
    (c : Collection) (q : String) (k : Nat) (hk : c.length ≤ k)
    (sc : StoredChunk) (hsc : sc ∈ c) :
    (⟨sc.id, sc.document, sc.meta, dist q sc.document⟩ : QueryRow) ∈
      collectionQuery dist c q k none := by
  simp only [collectionQuery, List.mem_map]
  refine ⟨sc, ?_, rfl⟩
  rw [List.take_of_length_le (by rw [List.length_insertionSort]; exact hk)]
  exact (List.mem_insertionSort _).2 hsc

/-- Unfolding lemma: `retrieve_relevant_chunks` over an in-model collection with no
filter is the repackaging of the unfiltered store query. -/
theorem retrieve_collection_none (dist : String → String → Nat)
    (c : Collection) (q : String) (k : Nat) :
    retrieve_relevant_chunks (collectionStoreQuery dist c) q k none =
      (collectionQuery dist c q k none).map (fun r =>
        { id := r.id, content := r.document, source := r.meta.source,
          doc_id := r.meta.doc_id, chunk_index := r.meta.chunk_index }) := rfl

/-- C6: a filtered vector-store query never returns a chunk whose
`doc_id` is outside the supplied non-empty filter set; an empty-list
filter behaves exactly like an absent one; and an absent filter
searches the full corpus — with `top_k` at least the corpus size every
stored chunk is returned. -/
theorem C6_filtered_query_respects_filter
    (dist : String → String → Nat) (c : Collection) (query : String)
    (top_k : Nat) (ids : List String) (hne : ids ≠ []) :
    (∀ r ∈ retrieve_relevant_chunks (collectionStoreQuery dist c)
        query top_k (some ids), r.doc_id ∈ ids) ∧
    retrieve_relevant_chunks (collectionStoreQuery dist c) query top_k (some []) =
      retrieve_relevant_chunks (collectionStoreQuery dist c) query top_k none ∧
    (c.length ≤ top_k → ∀ sc ∈ c,
      ∃ r ∈ retrieve_relevant_chunks (collectionStoreQuery dist c) query top_k none,
        r.id = sc.id ∧ r.doc_id = sc.meta.doc_id) := by
  refine ⟨?_, rfl, ?_⟩
  · intro r hr
    obtain ⟨a, t, rfl⟩ : ∃ a t, ids = a :: t := by
      cases ids with
      | nil => exact absurd rfl hne
      | cons a t => exact ⟨a, t, rfl⟩
    have hr : r ∈ (collectionQuery dist c query top_k (some (a :: t))).map
        (fun row => ({ id := row.id, content := row.document,
                       source := row.meta.source, doc_id := row.meta.doc_id,
                       chunk_index := row.meta.chunk_index } : RetrievedChunk)) := hr
    simp only [List.mem_map] at hr
    obtain ⟨row, hrow, rfl⟩ := hr
    obtain ⟨sc, _, rfl, hin⟩ := mem_collectionQuery _ _ _ _ _ _ hrow
    exact hin _ rfl
  · intro hk sc hsc
    refine ⟨{ id := sc.id, content := sc.document, source := sc.meta.source,
              doc_id := sc.meta.doc_id, chunk_index := sc.meta.chunk_index }, ?_, rfl, rfl⟩
    rw [retrieve_collection_none]
    exact List.mem_map.2 ⟨_, collectionQuery_complete dist c query top_k hk sc hsc, rfl⟩

/-- Witness for C6 on the demo collection with filter `["d2"]`: the one
returned chunk's doc_id lies in the filter set, the empty filter equals
the absent filter, and the unfiltered query reaches every document. -/
theorem C6_filtered_query_respects_filter_witness :
    (∀ r ∈ retrieve_relevant_chunks (collectionStoreQuery demoDist demoCollection)
        "q" 5 (some ["d2"]), r.doc_id ∈ ["d2"]) ∧
    retrieve_relevant_chunks (collectionStoreQuery demoDist demoCollection)
        "q" 5 (some []) =
      retrieve_relevant_chunks (collectionStoreQuery demoDist demoCollection)
        "q" 5 none ∧
    (demoCollection.length ≤ 5 → ∀ sc ∈ demoCollection,
      ∃ r ∈ retrieve_relevant_chunks (collectionStoreQuery demoDist demoCollection)
          "q" 5 none, r.id = sc.id ∧ r.doc_id = sc.meta.doc_id) :=
  C6_filtered_query_respects_filter demoDist demoCollection "q" 5 ["d2"] (by decide)

/-- C9 counterexample: the returned elements of a query do not carry
the similarity score: two stores agreeing on everything but the
distances produce identical non-empty `retrieve_relevant_chunks`
results, so a returned element cannot contain its score. -/
theorem C9_counterexample :
    retrieve_relevant_chunks (collectionStoreQuery (fun _ _ => 0) demoCollection)
        "q" 1 none ≠ [] ∧
    retrieve_relevant_chunks (collectionStoreQuery (fun _ _ => 0) demoCollection)
        "q" 1 none =
      retrieve_relevant_chunks (collectionStoreQuery (fun _ _ => 7) demoCollection)
        "q" 1 none := by
  exact ⟨by decide, by decide⟩

/-- C9 amended: every element returned by a vector-store query is a
chunk record (id, content, source, doc_id, chunk_index) drawn from the
store; the per-row similarity score (distance) computed by the store is
not included in the returned element (the repackaging on lines 129-136
of rag_system.py leaves `'distance'` commented out). -/
theorem C9_amended_retrieved_chunk_shape
    (dist : String → String → Nat) (c : Collection) (query : String)
    (top_k : Nat) (doc_ids_filter : Option (List String)) (r : RetrievedChunk)
    (hr : r ∈ retrieve_relevant_chunks (collectionStoreQuery dist c)
      query top_k doc_ids_filter) :
    ∃ sc ∈ c,
      r = { id := sc.id, content := sc.document, source := sc.meta.source,
            doc_id := sc.meta.doc_id, chunk_index := sc.meta.chunk_index } := by
  have key : ∀ w, r ∈ (collectionQuery dist c query top_k w).map
      (fun row => ({ id := row.id, content := row.document,
                     source := row.meta.source, doc_id := row.meta.doc_id,
                     chunk_index := row.meta.chunk_index } : RetrievedChunk)) →
      ∃ sc ∈ c,
        r = { id := sc.id, content := sc.document, source := sc.meta.source,
              doc_id := sc.meta.doc_id, chunk_index := sc.meta.chunk_index } := by
    intro w hw
    simp only [List.mem_map] at hw
    obtain ⟨row, hrow, rfl⟩ := hw
    obtain ⟨sc, hsc, rfl, -⟩ := mem_collectionQuery _ _ _ _ _ _ hrow
    exact ⟨sc, hsc, rfl⟩
  cases doc_ids_filter with
  | none => exact key none hr
  | some ids =>
    cases ids with
    | nil => exact key none hr
    | cons a t => exact key (some (a :: t)) hr

/-- Witness for C9 amended: the chunk retrieved from the demo
collection is one of its stored records, repackaged without a score. -/
theorem C9_amended_retrieved_chunk_shape_witness :
    ∃ sc ∈ demoCollection,
      ({ id := "d2-chunk-0", content := "dogs eat bones", source := "b.pdf",
         doc_id := "d2", chunk_index := 0 } : RetrievedChunk) =
      { id := sc.id, content := sc.document, source := sc.meta.source,
        doc_id := sc.meta.doc_id, chunk_index := sc.meta.chunk_index } :=
  C9_amended_retrieved_chunk_shape demoDist demoCollection "q" 5 (some ["d2"])
    _ (by decide)

/-- C1: after `delete_document_chunks d`, a subsequent unfiltered query
never returns a chunk with `doc_id = d`; and deleting a doc_id with no
chunks in the store is a no-op (the collection is unchanged), not an
error. -/
theorem C1_delete_document_removes_all_chunks
    (dist : String → String → Nat) (c : Collection) (d query : String)
    (top_k : Nat) :
    (∀ r ∈ retrieve_relevant_chunks
        (collectionStoreQuery dist (delete_document_chunks c d)) query top_k none,
        r.doc_id ≠ d) ∧
    ((∀ sc ∈ c, sc.meta.doc_id ≠ d) → delete_document_chunks c d = c) := by
  constructor
  · intro r hr
    rw [retrieve_collection_none] at hr
    simp only [List.mem_map] at hr
    obtain ⟨row, hrow, rfl⟩ := hr
    obtain ⟨sc, hsc, rfl, -⟩ := mem_collectionQuery _ _ _ _ _ _ hrow
    unfold delete_document_chunks at hsc
    have := List.mem_filter.1 hsc
    exact of_decide_eq_true this.2
  · intro h
    unfold delete_document_chunks
    rw [List.filter_eq_self]
    intro sc hsc
    exact decide_eq_true (h sc hsc)

/-- Witness for C1 on the demo collection: after deleting `"d1"` the
unfiltered query's returned chunk is not from `"d1"`, and deleting the
absent `"d3"` leaves the collection unchanged. -/
theorem C1_delete_document_removes_all_chunks_witness :
    ({ id := "d2-chunk-0", content := "dogs eat bones", source := "b.pdf",
       doc_id := "d2", chunk_index := 0 } : RetrievedChunk).doc_id ≠ "d1" ∧
    delete_document_chunks demoCollection "d3" = demoCollection :=
  ⟨(C1_delete_document_removes_all_chunks demoDist demoCollection "d1" "q" 5).1
      _ (by decide),
   (C1_delete_document_removes_all_chunks demoDist demoCollection "d3" "q" 5).2
      (by decide)⟩

/-- Dropping each chunk's `ov`-character overlap prefix and
concatenating yields the text from position `start + ov` on: the chunk
windows advance by `cs - ov`, so the dropped chunks tile the text
contiguously. -/
theorem chunkLoop_flatten_drop (text : List Char) (cs ov : Nat) (hov : ov < cs) :
    ∀ fuel start, text.length ≤ start + fuel →
      ((chunkLoop text cs ov start).map (List.drop ov)).flatten =
        text.drop (start + ov) := by
  intro fuel
  induction fuel with
  | zero =>
    intro start h
    rw [chunkLoop, dif_neg (by omega)]
    simp only [List.map_nil, List.flatten_nil]
    exact (List.drop_eq_nil_of_le (by omega)).symm
  | succ n ih =>
    intro start h
    by_cases hstart : start < text.length
    · rw [chunkLoop, dif_pos ⟨hstart, hov⟩]
      by_cases hend : text.length ≤ start + cs
      · rw [if_pos hend]
        simp only [List.map_cons, List.map_nil, List.flatten_cons,
          List.flatten_nil, List.append_nil]
        rw [List.take_of_length_le (by simp [List.length_drop]; omega)]
        rw [List.drop_drop]
      · rw [if_neg hend]
        simp only [List.map_cons, List.flatten_cons]
        rw [ih (start + (cs - ov)) (by omega)]
        have key : ∀ (l : List Char) (a b : Nat), b ≤ a →
            List.drop b (l.take a) ++ l.drop a = l.drop b := by
          intro l a b hba
          rw [List.drop_take]
          have hd : l.drop a = (l.drop b).drop (a - b) := by
            rw [List.drop_drop]
            congr 1
            omega
          rw [hd]
          exact List.take_append_drop _ _
        have e1 : text.drop (start + (cs - ov) + ov) = (text.drop start).drop cs := by
          rw [List.drop_drop]
          congr 1
          omega
        have e2 : text.drop (start + ov) = (text.drop start).drop ov := by
          rw [List.drop_drop]
        rw [e1, e2]
        exact key (text.drop start) cs ov (by omega)
    · rw [chunkLoop, dif_neg (by omega)]
      simp only [List.map_nil, List.flatten_nil]
      exact (List.drop_eq_nil_of_le (by omega)).symm

/-- The chunks produced by the sliding-window loop starting at 0 cover
the whole text with no gaps. -/
theorem reassemble_chunkLoop (text : List Char) (cs ov : Nat) (hov : ov < cs) :
    reassemble ov (chunkLoop text cs ov 0) = text := by
  by_cases h0 : 0 < text.length
  · rw [chunkLoop, dif_pos ⟨h0, hov⟩]
    by_cases h1 : text.length ≤ 0 + cs
    · rw [if_pos h1]
      simp only [reassemble, List.map_nil, List.flatten_nil, List.append_nil,
        List.drop_zero]
      exact List.take_of_length_le (by omega)
    · rw [if_neg h1]
      simp only [reassemble]
      rw [chunkLoop_flatten_drop text cs ov hov text.length (0 + (cs - ov))
        (by omega)]
      rw [List.drop_zero]
      have e : 0 + (cs - ov) + ov = cs := by omega
      rw [e]
      exact List.take_append_drop _ _
  · have htext : text = [] := by
      cases text with
      | nil => rfl
      | cons a t => simp at h0
    subst htext
    rw [chunkLoop, dif_neg (by omega)]
    rfl

/-- Consecutive chunks produced by the sliding-window loop share
exactly their `ov`-character overlap. -/
theorem chunkLoop_chain (text : List Char) (cs ov : Nat) (hov : ov < cs) :
    ∀ fuel start, text.length ≤ start + fuel →
      List.Chain' (sharesOverlap ov) (chunkLoop text cs ov start) := by
  intro fuel
  induction fuel with
  | zero =>
    intro start h
    rw [chunkLoop, dif_neg (by omega)]
    exact List.chain'_nil
  | succ n ih =>
    intro start h
    by_cases hstart : start < text.length
    · rw [chunkLoop, dif_pos ⟨hstart, hov⟩]
      by_cases hend : text.length ≤ start + cs
      · rw [if_pos hend]
        exact List.chain'_singleton _
      · rw [if_neg hend]
        rw [List.chain'_cons']
        constructor
        · intro y hy
          rw [chunkLoop, dif_pos ⟨(by omega : start + (cs - ov) < text.length), hov⟩]
            at hy
          simp only [List.head?_cons, Option.mem_def, Option.some.injEq] at hy
          subst hy
          constructor
          · have hlen : ((text.drop start).take cs).length = cs := by
              simp [List.length_take, List.length_drop]
              omega
            rw [hlen, List.drop_take, List.drop_drop]
            have e1 : cs - (cs - ov) = ov := by omega
            rw [e1, List.take_take]
            have e2 : min ov cs = ov := Nat.min_eq_left (by omega)
            rw [e2]
          · simp only [List.length_take, List.length_drop]
            omega
        · exact ih (start + (cs - ov)) (by omega)
    · rw [chunkLoop, dif_neg (by omega)]
      exact List.chain'_nil

/-- C5: for every non-empty text and every valid `(chunk_size, overlap)`
with `0 ≤ overlap < chunk_size`, the returned chunks are non-empty,
cover the full text with no gaps (reassembling them by dropping each
later chunk's `overlap`-character prefix gives the text back), and
every pair of consecutive chunks shares exactly `overlap` characters
(here proved for all pairs, the final one included). -/
theorem C5_chunks_cover_and_share_overlap
    (text : List Char) (chunk_size overlap : Int) (hne : text ≠ [])
    (h0 : 0 ≤ overlap) (hlt : overlap < chunk_size) :
    ∃ chunks, split_text_into_chunks text chunk_size overlap = Except.ok chunks ∧
      chunks ≠ [] ∧
      reassemble overlap.toNat chunks = text ∧
      List.Chain' (sharesOverlap overlap.toNat) chunks := by
  have hov : overlap.toNat < chunk_size.toNat := by omega
  have hpos : 0 < text.length := List.length_pos.mpr hne
  refine ⟨chunkLoop text chunk_size.toNat overlap.toNat 0, ?_, ?_, ?_, ?_⟩
  · rw [split_text_into_chunks, if_neg hne, if_neg (by omega), if_neg (by omega),
      if_neg (by omega)]
  · rw [chunkLoop, dif_pos ⟨hpos, hov⟩]
    simp
  · exact reassemble_chunkLoop text _ _ hov
  · exact chunkLoop_chain text _ _ hov text.length 0 (by omega)

/-- Witness for C5 on an 8-character text with `chunk_size = 3` and
`overlap = 1`. -/
theorem C5_chunks_cover_and_share_overlap_witness :
    ∃ chunks, split_text_into_chunks "abcdefgh".data 3 1 = Except.ok chunks ∧
      chunks ≠ [] ∧ reassemble 1 chunks = "abcdefgh".data ∧
      List.Chain' (sharesOverlap 1) chunks :=
  C5_chunks_cover_and_share_overlap "abcdefgh".data 3 1 (by decide) (by decide)
    (by decide)

end RagChat
